import Mathlib

/-!
Verification of the AL3050 single-wire backlight driver core (src/al3050.c).

The driver bit-bangs a 16-bit command frame on one GPIO line.  We embed the
timing-relevant behaviour as a trace of GPIO events: every call to
`gpiod_direction_output`, `ndelay`, `mdelay`, `gpiod_direction_input` and
`gpiod_get_value` in the C source becomes one event in an explicit event
list, in program order.  Device state (`struct al3050_bl_data`) and the
backlight properties (`bl->props`) are threaded explicitly.  The results of
the `gpiod_get_value` reads in the acknowledge poll are supplied by an
input stream `inp : Nat → Nat` giving the value of the k-th read.
-/

namespace AL3050

/-! ### Timing and protocol constants (the `#define`s of al3050.c) -/

def ADDRESS_AL3050 : Nat := 0x5800
def T_DELAY_NS : Nat := 100000
def T_DETECTION_NS : Nat := 450000
def T_START_NS : Nat := 4000
def T_EOS_NS : Nat := 4000
def T_RESET_MS : Nat := 4
def T_LOGIC_1_NS : Nat := 4000
def T_LOGIC_0_NS : Nat := 9000

/-- `#define T_LOGIC_NS T_LOGIC_1_NS + T_LOGIC_0_NS`; it is only ever used
as a whole expression (`ndelay(T_LOGIC_NS - t_low)`), so the missing
parentheses in the macro are harmless and it denotes 13000. -/
def T_LOGIC_NS : Nat := T_LOGIC_1_NS + T_LOGIC_0_NS

def BRIGHTNESS_MAX : Nat := 31
def BRIGHTNESS_BMASK : Nat := 0x1f
def RFA_BMASK : Nat := 0x80
def RFA_ACK_WAIT : Int := 3500
def RFA_MAX_ACK_TIME : Int := 900000

/-- Kernel constants used by `al3050_backlight_update_status`:
`FB_BLANK_UNBLANK = 0`, `BL_CORE_SUSPENDED = 1 << 0`, `BL_CORE_FBBLANK = 1 << 1`. -/
def FB_BLANK_UNBLANK : Nat := 0
def BL_CORE_SUSPENDED : Nat := 1
def BL_CORE_FBBLANK : Nat := 2

/-! ### GPIO event traces -/

/-- One observable action on the GPIO line, in program order:
`out v` is `gpiod_direction_output(gpiod, v)`, `delayNs n` is `ndelay(n)`,
`delayMs n` is `mdelay(n)`, `input` is `gpiod_direction_input(gpiod)` and
`read v` is a `gpiod_get_value(gpiod)` call that returned `v`. -/
inductive Ev where
  | out (v : Nat)
  | delayNs (n : Nat)
  | delayMs (n : Nat)
  | input
  | read (v : Nat)
  deriving DecidableEq, Repr

/-- The device state `struct al3050_bl_data` (its protocol-relevant fields). -/
structure Pchip where
  last_brightness : Nat
  power : Nat
  rfa_en : Bool
  deriving DecidableEq, Repr

/-- The backlight properties `bl->props` fields the driver reads or writes. -/
structure Props where
  power : Nat
  brightness : Nat
  state : Nat
  deriving DecidableEq, Repr

/-- Trace of `al3050_init`: low for `T_RESET_MS` ms, high for `T_DELAY_NS` ns,
low for `T_DETECTION_NS` ns, then high (command-ready). -/
def al3050_init_trace : List Ev :=
  [Ev.out 0, Ev.delayMs T_RESET_MS, Ev.out 1, Ev.delayNs T_DELAY_NS,
   Ev.out 0, Ev.delayNs T_DETECTION_NS, Ev.out 1]

/-- Number of runs of the detection/reset sequence recorded in a trace.
`mdelay` is called only from `al3050_init`, so counting the `delayMs T_RESET_MS`
events counts the invocations of the sequence. -/
def resetCount (tr : List Ev) : Nat :=
  tr.count (Ev.delayMs T_RESET_MS)

/-! ### The command frame -/

/-- The frame built at the top of `al3050_backlight_set_value`:
`data = ADDRESS_AL3050 | (brightness & BRIGHTNESS_BMASK)`, then
`data |= RFA_BMASK` when `rfa_en` is set.  Brightness is the nonnegative
`int` supplied by the backlight core. -/
def setData (brightness : Nat) (rfa_en : Bool) : Nat :=
  let d := ADDRESS_AL3050 ||| (brightness &&& BRIGHTNESS_BMASK)
  if rfa_en then d ||| RFA_BMASK else d

/-- Low-phase duration chosen in the bit loop:
`t_low = T_LOGIC_1_NS` when `data & max_bmask` is nonzero, else `T_LOGIC_0_NS`. -/
def t_low (data m : Nat) : Nat :=
  if data &&& m ≠ 0 then T_LOGIC_1_NS else T_LOGIC_0_NS

/-- One iteration of the bit loop at mask `m`: drive low for `t_low`, high
for the rest of the `T_LOGIC_NS` slot; when `m` is `addr_bmask` (= `0x100`,
i.e. right after the 8th transmitted bit) additionally emit the EOS low
pulse and the start high pulse separating address and data bytes. -/
def bitSlot (data m : Nat) : List Ev :=
  [Ev.out 0, Ev.delayNs (t_low data m), Ev.out 1, Ev.delayNs (T_LOGIC_NS - t_low data m)] ++
    (if m = 0x100 then
      [Ev.out 0, Ev.delayNs T_EOS_NS, Ev.out 1, Ev.delayNs T_START_NS]
     else [])

/-- The loop `for (max_bmask >>= 1; max_bmask > 0x0; max_bmask >>= 1)`:
masks `2^15, 2^14, …, 2^0` in that order; `bitLoop data 16` is the whole loop. -/
def bitLoop (data : Nat) : Nat → List Ev
  | 0 => []
  | i + 1 => bitSlot data (2 ^ i) ++ bitLoop data i

/-! ### The acknowledge poll -/

/-- The `while (max_ack_time > 0)` poll of `al3050_backlight_set_value`:
read the line; break on a low level, otherwise deduct `RFA_ACK_WAIT` from the
budget and try again.  `k` is the index of the next read in the input stream,
`budget` is the current value of `max_ack_time`.  `fuel` is a structural
bound on the recursion: the C loop runs at most `⌈900000 / 3500⌉ = 258`
iterations because the budget strictly decreases, and `ackPoll_fuel_stable`
below shows the result does not depend on the fuel once the fuel covers the
budget, so the fueled function computes exactly the C loop.
Returns the trace of reads and the final `max_ack_time`. -/
def ackPoll (inp : Nat → Nat) : Nat → Int → Nat → List Ev × Int
  | _, budget, 0 => ([], budget)
  | k, budget, fuel + 1 =>
    if budget ≤ 0 then ([], budget)
    else if inp k = 0 then ([Ev.read (inp k)], budget)
    else
      let r := ackPoll inp (k + 1) (budget - RFA_ACK_WAIT) fuel
      (Ev.read (inp k) :: r.1, r.2)

/-- Fuel sufficient for the full 900 µs budget: `⌈900000 / 3500⌉`. -/
def ACK_FUEL : Nat := 258

/-- The `if (pchip->rfa_en)` block: switch the line to input, poll, and on
timeout (`max_ack_time <= 0`) log and re-run `al3050_init`, otherwise
`ndelay` the remaining budget. -/
def ackSection (inp : Nat → Nat) : List Ev :=
  let r := ackPoll inp 0 RFA_MAX_ACK_TIME ACK_FUEL
  Ev.input :: (r.1 ++ (if r.2 ≤ 0 then al3050_init_trace else [Ev.delayNs r.2.toNat]))

/-! ### The transmit routine and the state machine -/

/-- Result of `al3050_backlight_set_value`: the GPIO trace, the updated
device state, and the C return value. -/
structure SetValueResult where
  trace : List Ev
  chip : Pchip
  ret : Int
  deriving DecidableEq, Repr

/-- `al3050_backlight_set_value`: build the frame from `bl->props.brightness`
(passed here as `brightness`) and `pchip->rfa_en`; drive high for
`T_START_NS`; run the bit loop; drive low for `T_EOS_NS`; when `rfa_en` is
set run the acknowledge section; finally drive high.  It unconditionally
records `pchip->last_brightness = bl->props.brightness` and returns 0. -/
def al3050_backlight_set_value (pchip : Pchip) (brightness : Nat) (inp : Nat → Nat) :
    SetValueResult :=
  let data := setData brightness pchip.rfa_en
  { trace :=
      [Ev.out 1, Ev.delayNs T_START_NS] ++ bitLoop data 16 ++
        [Ev.out 0, Ev.delayNs T_EOS_NS] ++
        (if pchip.rfa_en then ackSection inp else []) ++ [Ev.out 1],
    chip := { pchip with last_brightness := brightness },
    ret := 0 }

/-- Result of `al3050_backlight_update_status`: the GPIO trace, the updated
device state, the updated `bl->props`, and the C return value. -/
structure UpdateResult where
  trace : List Ev
  chip : Pchip
  props : Props
  ret : Int
  deriving DecidableEq, Repr

/-- `al3050_backlight_update_status`, the single state-changing entry point
(the spec's `apply`):
blank branch when `props.power != FB_BLANK_UNBLANK` or a suspend/fbblank
state bit is set: drive low, zero the brightness, set `pchip->power = 1`,
return 0.  Otherwise, when `pchip->power == 1`, run `al3050_init`, set
`pchip->power = props.power`, restore `props.brightness = last_brightness`,
transmit, and return 0; else just transmit and return its result. -/
def al3050_backlight_update_status (pchip : Pchip) (props : Props) (inp : Nat → Nat) :
    UpdateResult :=
  if props.power ≠ FB_BLANK_UNBLANK ∨ props.state &&& (BL_CORE_SUSPENDED ||| BL_CORE_FBBLANK) ≠ 0 then
    { trace := [Ev.out 0],
      chip := { pchip with power := 1 },
      props := { props with brightness := 0 },
      ret := 0 }
  else if pchip.power = 1 then
    let chip1 : Pchip := { pchip with power := props.power }
    let props1 : Props := { props with brightness := pchip.last_brightness }
    let r := al3050_backlight_set_value chip1 props1.brightness inp
    { trace := al3050_init_trace ++ r.trace, chip := r.chip, props := props1, ret := 0 }
  else
    let r := al3050_backlight_set_value pchip props.brightness inp
    { trace := r.trace, chip := r.chip, props := props, ret := r.ret }

/-- Device state as left by `al3050_backlight_probe`: `devm_kzalloc` zeroes
`last_brightness`, the probe sets `pchip->power = 0`, and `rfa_en` comes from
the device tree. -/
def probe_chip (rfa_en : Bool) : Pchip :=
  { last_brightness := 0, power := 0, rfa_en := rfa_en }

/-- Backlight properties as set up by `al3050_backlight_probe`:
`props.brightness = BRIGHTNESS_MAX`, everything else zeroed. -/
def probe_props : Props :=
  { power := FB_BLANK_UNBLANK, brightness := BRIGHTNESS_MAX, state := 0 }

/-- GPIO trace of the probe itself: it calls `al3050_init(bl)` once. -/
def probe_trace : List Ev := al3050_init_trace

/-- Concrete input stream for witnesses: the line reads high until the
fourth poll (index 3), where it reads low. -/
def ackInp3 : Nat → Nat := fun k => if k = 3 then 0 else 1

/-- Concrete input stream for witnesses: the line always reads high
(the chip never acknowledges). -/
def ackInpHigh : Nat → Nat := fun _ => 1

/-- Spec-side description of one transmitted bit (refinement target for the
engine's bit loop, following the spec's words): bit `i` of the frame, low
phase of 4000 ns when the bit is 1 and 9000 ns when it is 0, then high for
the remainder of the fixed 13000 ns slot. -/
def spec_bit_slot (data i : Nat) : List Ev :=
  if data &&& 2 ^ i ≠ 0 then
    [Ev.out 0, Ev.delayNs 4000, Ev.out 1, Ev.delayNs (13000 - 4000)]
  else
    [Ev.out 0, Ev.delayNs 9000, Ev.out 1, Ev.delayNs (13000 - 9000)]

/-! ### First claims about the frame encoding -/

/-- C1: for every brightness b in 0..31 the frame has high byte 0x58; its low
byte is b when ack (rfa) is disabled and b | 0x80 when ack is enabled. -/
theorem frame_bytes (b : Nat) (hb : b ≤ 31) :
    setData b false >>> 8 = 0x58 ∧ setData b false &&& 0xff = b ∧
      setData b true >>> 8 = 0x58 ∧ setData b true &&& 0xff = (b ||| 0x80) := by
  have h : ∀ c < 32, setData c false >>> 8 = 0x58 ∧ setData c false &&& 0xff = c ∧
      setData c true >>> 8 = 0x58 ∧ setData c true &&& 0xff = (c ||| 0x80) := by decide
  exact h b (by omega)

/-- Witness for `frame_bytes` at brightness 20. -/
theorem frame_bytes_witness :
    (20 : Nat) ≤ 31 ∧ (setData 20 false >>> 8 = 0x58 ∧ setData 20 false &&& 0xff = 20 ∧
      setData 20 true >>> 8 = 0x58 ∧ setData 20 true &&& 0xff = (20 ||| 0x80)) :=
  ⟨by decide, frame_bytes 20 (by decide)⟩

/-- C8: any brightness is masked to 5 bits: the frame for b equals the frame
for `b & 0x1f`, and the masking is idempotent. -/
theorem truncation_idempotent (b : Nat) (r : Bool) :
    setData b r = setData (b &&& 0x1f) r ∧ (b &&& 0x1f) &&& 0x1f = b &&& 0x1f := by
  have hmask : (b &&& 0x1f) &&& 0x1f = b &&& 0x1f := by
    rw [Nat.and_assoc, Nat.and_self]
  refine ⟨?_, hmask⟩
  simp only [setData, BRIGHTNESS_BMASK]
  rw [hmask]

/-- One bit-loop iteration at mask `2 ^ i` is the spec's bit slot, plus the
EOS/start gap exactly when the mask is `0x100`. -/
theorem bitSlot_spec (d i : Nat) :
    bitSlot d (2 ^ i) = spec_bit_slot d i ++
      (if (2 : Nat) ^ i = 0x100 then
        [Ev.out 0, Ev.delayNs T_EOS_NS, Ev.out 1, Ev.delayNs T_START_NS]
       else []) := by
  unfold bitSlot spec_bit_slot t_low T_LOGIC_NS T_LOGIC_1_NS T_LOGIC_0_NS
  by_cases h : d &&& 2 ^ i ≠ 0 <;> simp [h]

/-- C2: the transmit routine emits the 16 frame bits most-significant first,
each as a low phase (4000 ns for a 1, 9000 ns for a 0) followed by a high
phase filling the fixed 13000 ns slot; exactly one EOS(4 µs)+start(4 µs) gap
sits between bit 8 and bit 9, and exactly one terminal EOS low pulse follows
bit 16. -/
theorem bit_emission (pch : Pchip) (b : Nat) (inp : Nat → Nat) :
    (al3050_backlight_set_value pch b inp).trace =
      [Ev.out 1, Ev.delayNs 4000] ++
        ((List.range 8).flatMap fun k => spec_bit_slot (setData b pch.rfa_en) (15 - k)) ++
        [Ev.out 0, Ev.delayNs 4000, Ev.out 1, Ev.delayNs 4000] ++
        ((List.range 8).flatMap fun k => spec_bit_slot (setData b pch.rfa_en) (7 - k)) ++
        [Ev.out 0, Ev.delayNs 4000] ++
        (if pch.rfa_en then ackSection inp else []) ++ [Ev.out 1] := by
  have hloop : ∀ d : Nat, bitLoop d 16 =
      bitSlot d (2 ^ 15) ++ (bitSlot d (2 ^ 14) ++ (bitSlot d (2 ^ 13) ++ (bitSlot d (2 ^ 12) ++
        (bitSlot d (2 ^ 11) ++ (bitSlot d (2 ^ 10) ++ (bitSlot d (2 ^ 9) ++ (bitSlot d (2 ^ 8) ++
        (bitSlot d (2 ^ 7) ++ (bitSlot d (2 ^ 6) ++ (bitSlot d (2 ^ 5) ++ (bitSlot d (2 ^ 4) ++
        (bitSlot d (2 ^ 3) ++ (bitSlot d (2 ^ 2) ++ (bitSlot d (2 ^ 1) ++ (bitSlot d (2 ^ 0) ++
        []))))))))))))))) := fun d => rfl
  have hr : List.range 8 = [0, 1, 2, 3, 4, 5, 6, 7] := rfl
  simp only [al3050_backlight_set_value, hloop, bitSlot_spec]
  simp [hr, List.flatMap_cons, List.flatMap_nil, List.append_assoc,
    T_START_NS, T_EOS_NS]

/-! ### Lemmas about the acknowledge poll -/

/-- The fuel does not matter once it covers the budget: `ackPoll` computes
the C `while` loop, which terminates because the budget strictly decreases. -/
theorem ackPoll_fuel_stable (inp : Nat → Nat) :
    ∀ (f g k : Nat) (b : Int), b ≤ RFA_ACK_WAIT * f → b ≤ RFA_ACK_WAIT * g →
      ackPoll inp k b f = ackPoll inp k b g := by
  intro f
  induction f with
  | zero =>
    intro g k b hf hg
    have hb : b ≤ 0 := by simpa using hf
    cases g with
    | zero => rfl
    | succ g => simp [ackPoll, hb]
  | succ f ih =>
    intro g k b hf hg
    cases g with
    | zero =>
      have hb : b ≤ 0 := by simpa using hg
      simp [ackPoll, hb]
    | succ g =>
      simp only [ackPoll]
      by_cases hb : b ≤ 0
      · simp [hb]
      · by_cases h0 : inp k = 0
        · simp [hb, h0]
        · have hf2 : b - RFA_ACK_WAIT ≤ RFA_ACK_WAIT * f := by
            simp only [RFA_ACK_WAIT] at hf ⊢
            push_cast at hf ⊢
            omega
          have hg2 : b - RFA_ACK_WAIT ≤ RFA_ACK_WAIT * g := by
            simp only [RFA_ACK_WAIT] at hg ⊢
            push_cast at hg ⊢
            omega
          simp [hb, h0, ih g (k + 1) (b - RFA_ACK_WAIT) hf2 hg2]

/-- The poll performs at most `fuel` reads. -/
theorem ackPoll_length_le (inp : Nat → Nat) :
    ∀ (f k : Nat) (b : Int), (ackPoll inp k b f).1.length ≤ f := by
  intro f
  induction f with
  | zero => intro k b; simp [ackPoll]
  | succ f ih =>
    intro k b
    simp only [ackPoll]
    by_cases hb : b ≤ 0
    · simp [hb]
    · by_cases h0 : inp k = 0
      · simp [hb, h0]
      · simpa [hb, h0] using Nat.succ_le_succ (ih (k + 1) (b - RFA_ACK_WAIT))

/-- When the line never reads low, the poll exhausts its budget. -/
theorem ackPoll_timeout_budget (inp : Nat → Nat) (hno : ∀ j, inp j ≠ 0) :
    ∀ (f k : Nat) (b : Int), b ≤ RFA_ACK_WAIT * f → (ackPoll inp k b f).2 ≤ 0 := by
  intro f
  induction f with
  | zero =>
    intro k b hf
    simpa [ackPoll] using by simpa using hf
  | succ f ih =>
    intro k b hf
    simp only [ackPoll]
    by_cases hb : b ≤ 0
    · simp [hb]
    · have h0 : ¬ inp k = 0 := hno k
      have hf2 : b - RFA_ACK_WAIT ≤ RFA_ACK_WAIT * f := by
        simp only [RFA_ACK_WAIT] at hf ⊢
        push_cast at hf ⊢
        omega
      simpa [hb, h0] using ih (k + 1) (b - RFA_ACK_WAIT) hf2

/-- Every event the poll records is a `read`. -/
theorem ackPoll_trace_reads (inp : Nat → Nat) :
    ∀ (f k : Nat) (b : Int) (e : Ev), e ∈ (ackPoll inp k b f).1 → ∃ v, e = Ev.read v := by
  intro f
  induction f with
  | zero => intro k b e he; simp [ackPoll] at he
  | succ f ih =>
    intro k b e he
    simp only [ackPoll] at he
    by_cases hb : b ≤ 0
    · simp [hb] at he
    · by_cases h0 : inp k = 0
      · simp [hb, h0] at he
        exact ⟨0, he⟩
      · simp [hb, h0] at he
        rcases he with he | he
        · exact ⟨inp k, he⟩
        · exact ih (k + 1) (b - RFA_ACK_WAIT) e he

/-- The poll trace contains no `delayMs` event. -/
theorem ackPoll_count_delayMs (inp : Nat → Nat) (f k : Nat) (b : Int) (t : Nat) :
    (ackPoll inp k b f).1.count (Ev.delayMs t) = 0 := by
  rw [List.count_eq_zero]
  intro hmem
  rcases ackPoll_trace_reads inp f k b _ hmem with ⟨v, hv⟩
  cases hv

/-- A bit slot contains no `delayMs` event. -/
theorem bitSlot_count_delayMs (d m t : Nat) :
    (bitSlot d m).count (Ev.delayMs t) = 0 := by
  unfold bitSlot
  by_cases h : m = 0x100 <;> simp [h, List.count_cons, List.count_append]

/-- The bit loop contains no `delayMs` event. -/
theorem bitLoop_count_delayMs (d t : Nat) :
    ∀ i, (bitLoop d i).count (Ev.delayMs t) = 0 := by
  intro i
  induction i with
  | zero => simp [bitLoop]
  | succ i ih => simp [bitLoop, List.count_append, bitSlot_count_delayMs, ih]

/-- On a never-acknowledging line the acknowledge section times out and
re-runs `al3050_init` (the recovery path of `al3050_backlight_set_value`). -/
theorem ackSection_timeout (inp : Nat → Nat) (hno : ∀ j, inp j ≠ 0) :
    ackSection inp =
      Ev.input :: ((ackPoll inp 0 RFA_MAX_ACK_TIME ACK_FUEL).1 ++ al3050_init_trace) := by
  have hb : (ackPoll inp 0 RFA_MAX_ACK_TIME ACK_FUEL).2 ≤ 0 := by
    apply ackPoll_timeout_budget inp hno
    simp [RFA_ACK_WAIT, RFA_MAX_ACK_TIME, ACK_FUEL]
  simp [ackSection, hb]

/-- C3: when ack is enabled and the line never reads low during the
acknowledge window, an Active-state `update_status` still completes with
return value 0 (the condition is not surfaced as an error), the
detection/reset sequence runs exactly once (the recovery inside
`set_value`), and the line ends driven as output high. -/
theorem ack_timeout_recovery (pchip : Pchip) (props : Props) (inp : Nat → Nat)
    (hactive : pchip.power ≠ 1) (hp : props.power = FB_BLANK_UNBLANK)
    (hs : props.state &&& (BL_CORE_SUSPENDED ||| BL_CORE_FBBLANK) = 0)
    (hr : pchip.rfa_en = true) (hno : ∀ k, inp k ≠ 0) :
    (al3050_backlight_update_status pchip props inp).ret = 0 ∧
      resetCount (al3050_backlight_update_status pchip props inp).trace = 1 ∧
      (al3050_backlight_update_status pchip props inp).trace.getLast? = some (Ev.out 1) := by
  have hcond : ¬(props.power ≠ FB_BLANK_UNBLANK ∨
      props.state &&& (BL_CORE_SUSPENDED ||| BL_CORE_FBBLANK) ≠ 0) := by
    simp [hp, hs]
  simp only [al3050_backlight_update_status, if_neg hcond, if_neg hactive]
  refine ⟨rfl, ?_, ?_⟩
  · simp [al3050_backlight_set_value, hr, ackSection_timeout inp hno, resetCount,
      List.count_append, List.count_cons, bitLoop_count_delayMs, ackPoll_count_delayMs,
      al3050_init_trace]
  · simp only [al3050_backlight_set_value]
    rw [List.getLast?_concat]

/-- Witness for `ack_timeout_recovery`: Active device with rfa enabled, a
line that always reads high. -/
theorem ack_timeout_recovery_witness :
    ((probe_chip true).power ≠ 1 ∧ (probe_props.power = FB_BLANK_UNBLANK) ∧
      (probe_props.state &&& (BL_CORE_SUSPENDED ||| BL_CORE_FBBLANK) = 0) ∧
      (probe_chip true).rfa_en = true ∧ (∀ k, ackInpHigh k ≠ 0)) ∧
    ((al3050_backlight_update_status (probe_chip true) probe_props ackInpHigh).ret = 0 ∧
      resetCount (al3050_backlight_update_status (probe_chip true) probe_props ackInpHigh).trace = 1 ∧
      (al3050_backlight_update_status (probe_chip true) probe_props ackInpHigh).trace.getLast? =
        some (Ev.out 1)) :=
  ⟨⟨by decide, rfl, rfl, rfl, fun k => by simp [ackInpHigh]⟩,
    ack_timeout_recovery (probe_chip true) probe_props ackInpHigh (by decide) rfl rfl rfl
      (fun k => by simp [ackInpHigh])⟩

/-- When the line first reads low at poll index `j` (with budget remaining),
the poll returns the reads so far and the undrained budget. -/
theorem ackPoll_ack_spec (inp : Nat → Nat) :
    ∀ (j f k : Nat) (b : Int), (∀ i, i < j → inp (k + i) ≠ 0) → inp (k + j) = 0 →
      RFA_ACK_WAIT * (j : Int) < b → j < f →
      ackPoll inp k b f =
        ((List.range' k j).map (fun i => Ev.read (inp i)) ++ [Ev.read 0],
          b - RFA_ACK_WAIT * (j : Int)) := by
  intro j
  induction j with
  | zero =>
    intro f k b hpre h0 hb hf
    have hk : inp k = 0 := by simpa using h0
    have hbpos : ¬ b ≤ 0 := by
      simp only [RFA_ACK_WAIT] at hb
      omega
    cases f with
    | zero => omega
    | succ f => simp [ackPoll, hbpos, hk]
  | succ j ih =>
    intro f k b hpre h0 hb hf
    have hbpos : ¬ b ≤ 0 := by
      simp only [RFA_ACK_WAIT] at hb
      push_cast at hb
      omega
    have hk : ¬ inp k = 0 := by
      have := hpre 0 (Nat.succ_pos j)
      simpa using this
    cases f with
    | zero => omega
    | succ f =>
      have hpre2 : ∀ i, i < j → inp (k + 1 + i) ≠ 0 := by
        intro i hi
        have := hpre (i + 1) (by omega)
        have heq : k + (i + 1) = k + 1 + i := by omega
        rwa [heq] at this
      have h02 : inp (k + 1 + j) = 0 := by
        have heq : k + (j + 1) = k + 1 + j := by omega
        rwa [heq] at h0
      have hb2 : RFA_ACK_WAIT * (j : Int) < b - RFA_ACK_WAIT := by
        simp only [RFA_ACK_WAIT] at hb ⊢
        push_cast at hb ⊢
        omega
      have hf2 : j < f := by omega
      simp only [ackPoll, hbpos, hk, if_false, if_neg]
      rw [ih f (k + 1) (b - RFA_ACK_WAIT) hpre2 h02 hb2 hf2]
      simp only [Prod.mk.injEq]
      refine ⟨by simp [List.range'_succ], ?_⟩
      simp only [RFA_ACK_WAIT]
      push_cast
      ring

/-- C9: with ack enabled the engine switches the line to input and polls for
a low level, deducting a fixed 3.5 µs slice from the 900 µs budget per read;
the poll is bounded for every input (at most `⌈900000/3500⌉ = 258` reads, so
it always terminates), and when the first low is observed at poll index `j`
the remaining budget `900000 − 3500·j` of the window is waited out before
the line is driven high again. -/
theorem ack_poll_bounded (inp : Nat → Nat) (j : Nat) (hj : j ≤ 257)
    (h0 : inp j = 0) (hpre : ∀ i, i < j → inp i ≠ 0) :
    (ACK_FUEL = (900000 + 3499) / 3500 ∧
      ∀ g : Nat → Nat, ((ackPoll g 0 RFA_MAX_ACK_TIME ACK_FUEL).1).length ≤ 258) ∧
    ackSection inp =
      Ev.input :: (((List.range j).map fun i => Ev.read (inp i)) ++ [Ev.read 0] ++
        [Ev.delayNs (900000 - 3500 * j)]) ∧
    (∀ (pch : Pchip) (b : Nat), pch.rfa_en = true →
      (al3050_backlight_set_value pch b inp).trace =
        [Ev.out 1, Ev.delayNs T_START_NS] ++ bitLoop (setData b true) 16 ++
          [Ev.out 0, Ev.delayNs T_EOS_NS] ++ ackSection inp ++ [Ev.out 1]) := by
  refine ⟨⟨by decide, fun g => ackPoll_length_le g ACK_FUEL 0 RFA_MAX_ACK_TIME⟩, ?_, ?_⟩
  · have hb : RFA_ACK_WAIT * (j : Int) < RFA_MAX_ACK_TIME := by
      simp only [RFA_ACK_WAIT, RFA_MAX_ACK_TIME]
      omega
    have hspec := ackPoll_ack_spec inp j ACK_FUEL 0 RFA_MAX_ACK_TIME
      (by intro i hi; simpa using hpre i hi) (by simpa using h0) hb
      (by simp only [ACK_FUEL]; omega)
    have hpos : ¬ (RFA_MAX_ACK_TIME - RFA_ACK_WAIT * (j : Int) ≤ 0) := by
      simp only [RFA_ACK_WAIT, RFA_MAX_ACK_TIME]
      omega
    have htn : (RFA_MAX_ACK_TIME - RFA_ACK_WAIT * (j : Int)).toNat = 900000 - 3500 * j := by
      simp only [RFA_ACK_WAIT, RFA_MAX_ACK_TIME]
      omega
    simp only [ackSection, hspec, if_neg hpos, htn]
    rw [← List.range_eq_range']
  · intro pch b hrfa
    simp [al3050_backlight_set_value, hrfa]

/-- Witness for `ack_poll_bounded`: the line acknowledges at the fourth read. -/
theorem ack_poll_bounded_witness :
    ((3 : Nat) ≤ 257 ∧ ackInp3 3 = 0 ∧ (∀ i, i < 3 → ackInp3 i ≠ 0)) ∧
    ((ACK_FUEL = (900000 + 3499) / 3500 ∧
        ∀ g : Nat → Nat, ((ackPoll g 0 RFA_MAX_ACK_TIME ACK_FUEL).1).length ≤ 258) ∧
      ackSection ackInp3 =
        Ev.input :: (((List.range 3).map fun i => Ev.read (ackInp3 i)) ++ [Ev.read 0] ++
          [Ev.delayNs (900000 - 3500 * 3)]) ∧
      (∀ (pch : Pchip) (b : Nat), pch.rfa_en = true →
        (al3050_backlight_set_value pch b ackInp3).trace =
          [Ev.out 1, Ev.delayNs T_START_NS] ++ bitLoop (setData b true) 16 ++
            [Ev.out 0, Ev.delayNs T_EOS_NS] ++ ackSection ackInp3 ++ [Ev.out 1])) :=
  ⟨⟨by decide, by decide, by decide⟩,
    ack_poll_bounded ackInp3 3 (by decide) (by decide) (by decide)⟩

/-- C10: even on acknowledge timeout (line never low) the transmit routine
overwrites `last_brightness` with the requested brightness and returns 0;
after a subsequent blank, the next Active transition restores and re-sends
exactly that never-acknowledged brightness. -/
theorem timeout_persists (pchip : Pchip) (b bl2 : Nat) (inp : Nat → Nat)
    (hr : pchip.rfa_en = true) (hno : ∀ k, inp k ≠ 0) :
    resetCount (al3050_backlight_set_value pchip b inp).trace = 1 ∧
    (al3050_backlight_set_value pchip b inp).chip.last_brightness = b ∧
    (al3050_backlight_set_value pchip b inp).ret = 0 ∧
    (let r2 := al3050_backlight_update_status (al3050_backlight_set_value pchip b inp).chip
        { power := 4, brightness := bl2, state := 0 } inp
     let r3 := al3050_backlight_update_status r2.chip
        { power := FB_BLANK_UNBLANK, brightness := 0, state := 0 } inp
     r3.props.brightness = b ∧
       r3.trace = al3050_init_trace ++
         (al3050_backlight_set_value { r2.chip with power := FB_BLANK_UNBLANK } b inp).trace) := by
  refine ⟨?_, rfl, rfl, ?_⟩
  · simp [al3050_backlight_set_value, hr, ackSection_timeout inp hno, resetCount,
      List.count_append, List.count_cons, bitLoop_count_delayMs, ackPoll_count_delayMs,
      al3050_init_trace]
  · simp [al3050_backlight_update_status, al3050_backlight_set_value,
      FB_BLANK_UNBLANK, BL_CORE_SUSPENDED, BL_CORE_FBBLANK]

/-- Witness for `timeout_persists`: rfa-enabled device, line always high,
brightness 20 requested. -/
theorem timeout_persists_witness :
    ((probe_chip true).rfa_en = true ∧ (∀ k, ackInpHigh k ≠ 0)) ∧
    (resetCount (al3050_backlight_set_value (probe_chip true) 20 ackInpHigh).trace = 1 ∧
      (al3050_backlight_set_value (probe_chip true) 20 ackInpHigh).chip.last_brightness = 20 ∧
      (al3050_backlight_set_value (probe_chip true) 20 ackInpHigh).ret = 0 ∧
      (let r2 := al3050_backlight_update_status
          (al3050_backlight_set_value (probe_chip true) 20 ackInpHigh).chip
          { power := 4, brightness := 5, state := 0 } ackInpHigh
       let r3 := al3050_backlight_update_status r2.chip
          { power := FB_BLANK_UNBLANK, brightness := 0, state := 0 } ackInpHigh
       r3.props.brightness = 20 ∧
         r3.trace = al3050_init_trace ++
           (al3050_backlight_set_value { r2.chip with power := FB_BLANK_UNBLANK } 20
             ackInpHigh).trace)) :=
  ⟨⟨rfl, fun k => by simp [ackInpHigh]⟩,
    timeout_persists (probe_chip true) 20 5 ackInpHigh rfl (fun k => by simp [ackInpHigh])⟩

/-! ### Power state machine claims -/

/-- Counterexample to C4: from the freshly probed state (`pchip->power = 0`,
set at the end of `al3050_backlight_probe`) the first power-on
`update_status` call runs the detection/reset sequence zero times, yet it
transmits a full frame (its trace holds the sixteen 9000 ns pulses of the
bit slots).  The reset before the first frame happens in the probe itself,
not in the first `apply`. -/
theorem first_apply_no_reset_counterexample :
    resetCount (al3050_backlight_update_status (probe_chip false) probe_props ackInpHigh).trace
        = 0 ∧
      (al3050_backlight_update_status (probe_chip false) probe_props
          ackInpHigh).trace.count (Ev.delayNs 9000) = 16 := by
  decide

/-- C4 as amended: the probe itself runs the reset sequence once before any
`update_status` can run, and every transition into Active from the Blanked
bookkeeping state (`pchip->power = 1`) runs the reset sequence before the
frame is transmitted. -/
theorem reset_before_frame (pchip : Pchip) (props : Props) (inp : Nat → Nat)
    (hblank : pchip.power = 1) (hp : props.power = FB_BLANK_UNBLANK)
    (hs : props.state &&& (BL_CORE_SUSPENDED ||| BL_CORE_FBBLANK) = 0) :
    (al3050_backlight_update_status pchip props inp).trace =
      al3050_init_trace ++
        (al3050_backlight_set_value { pchip with power := props.power }
          pchip.last_brightness inp).trace ∧
    probe_trace = al3050_init_trace ∧
    resetCount al3050_init_trace = 1 := by
  have hcond : ¬(props.power ≠ FB_BLANK_UNBLANK ∨
      props.state &&& (BL_CORE_SUSPENDED ||| BL_CORE_FBBLANK) ≠ 0) := by
    simp [hp, hs]
  refine ⟨?_, rfl, by decide⟩
  simp [al3050_backlight_update_status, if_neg hcond, hblank]

/-- Witness for `reset_before_frame`: a Blanked device re-entering Active. -/
theorem reset_before_frame_witness :
    (({ last_brightness := 20, power := 1, rfa_en := false } : Pchip).power = 1 ∧
      probe_props.power = FB_BLANK_UNBLANK ∧
      probe_props.state &&& (BL_CORE_SUSPENDED ||| BL_CORE_FBBLANK) = 0) ∧
    ((al3050_backlight_update_status { last_brightness := 20, power := 1, rfa_en := false }
        probe_props ackInpHigh).trace =
      al3050_init_trace ++
        (al3050_backlight_set_value
          { ({ last_brightness := 20, power := 1, rfa_en := false } : Pchip) with
              power := probe_props.power } 20 ackInpHigh).trace ∧
      probe_trace = al3050_init_trace ∧
      resetCount al3050_init_trace = 1) :=
  ⟨⟨rfl, rfl, rfl⟩,
    reset_before_frame { last_brightness := 20, power := 1, rfa_en := false } probe_props
      ackInpHigh rfl rfl rfl⟩

/-- Counterexample to C5: in the round trip `apply(true, 20, false)`,
`apply(false, _, false)`, `apply(true, 0, false)` the final call returns 0,
not the restored brightness 20 — `al3050_backlight_update_status` never
returns the brightness. -/
theorem roundtrip_return_counterexample :
    (let r1 := al3050_backlight_update_status (probe_chip false)
        { power := 0, brightness := 20, state := 0 } ackInpHigh
     let r2 := al3050_backlight_update_status r1.chip
        { power := 4, brightness := 20, state := 0 } ackInpHigh
     let r3 := al3050_backlight_update_status r2.chip
        { power := 0, brightness := 0, state := 0 } ackInpHigh
     r3.ret = 0 ∧ r3.ret ≠ 20) := by
  decide

/-- C5 as amended: `last_brightness` is preserved unchanged across the
Blanked period and restored verbatim on the next Active transition: the
final call re-sends brightness 20 (not the requested 0), reports it through
`props.brightness` and `last_brightness`, runs the reset sequence exactly
once, and returns 0 (the update path always returns 0, not the brightness). -/
theorem roundtrip_restores_brightness :
    (let r1 := al3050_backlight_update_status (probe_chip false)
        { power := 0, brightness := 20, state := 0 } ackInpHigh
     let r2 := al3050_backlight_update_status r1.chip
        { power := 4, brightness := 20, state := 0 } ackInpHigh
     let r3 := al3050_backlight_update_status r2.chip
        { power := 0, brightness := 0, state := 0 } ackInpHigh
     r1.chip.last_brightness = 20 ∧ resetCount r1.trace = 0 ∧
       r2.chip.last_brightness = 20 ∧ r2.props.brightness = 0 ∧ r2.chip.power = 1 ∧
       r3.props.brightness = 20 ∧ r3.chip.last_brightness = 20 ∧
       resetCount r3.trace = 1 ∧ r3.ret = 0 ∧
       r3.trace = al3050_init_trace ++
         (al3050_backlight_set_value { last_brightness := 20, power := 0, rfa_en := false }
           20 ackInpHigh).trace) := by
  decide

/-- C6: any `update_status` call with power off or a suspend/blank state bit
set sends no frame — it only drives the line low — zeroes the brightness,
moves the bookkeeping state to Blanked (`pchip->power = 1`) and returns 0. -/
theorem blank_branch (pchip : Pchip) (props : Props) (inp : Nat → Nat)
    (h : props.power ≠ FB_BLANK_UNBLANK ∨
      props.state &&& (BL_CORE_SUSPENDED ||| BL_CORE_FBBLANK) ≠ 0) :
    al3050_backlight_update_status pchip props inp =
      { trace := [Ev.out 0], chip := { pchip with power := 1 },
        props := { props with brightness := 0 }, ret := 0 } := by
  simp [al3050_backlight_update_status, if_pos h]

/-- Witness for `blank_branch`: power-off request on an Active device. -/
theorem blank_branch_witness :
    ((4 : Nat) ≠ FB_BLANK_UNBLANK ∨ (0 : Nat) &&& (BL_CORE_SUSPENDED ||| BL_CORE_FBBLANK) ≠ 0) ∧
    al3050_backlight_update_status { last_brightness := 20, power := 0, rfa_en := false }
        { power := 4, brightness := 20, state := 0 } ackInpHigh =
      { trace := [Ev.out 0],
        chip := { last_brightness := 20, power := 1, rfa_en := false },
        props := { power := 4, brightness := 0, state := 0 }, ret := 0 } :=
  ⟨by decide,
    blank_branch { last_brightness := 20, power := 0, rfa_en := false }
      { power := 4, brightness := 20, state := 0 } ackInpHigh (by decide)⟩

/-- Counterexample to C7: after probe (which runs `init`), the call
`apply(true, 31, false)` with ack disabled does not return the applied
brightness 31 — `al3050_backlight_update_status` returns 0. -/
theorem active_return_counterexample :
    (al3050_backlight_update_status (probe_chip false) probe_props ackInpHigh).ret ≠ 31 := by
  decide

/-- C7 as amended: `update_status` always returns 0 on every path, never the
brightness; in the Active path the applied brightness is recorded in
`last_brightness` and `props.brightness`, and `init()` followed by
`apply(true, 31, false)` with ack disabled records brightness 31 whose frame
has data byte 0x1f. -/
theorem active_apply_zero_return :
    (∀ (pch : Pchip) (pr : Props) (g : Nat → Nat),
      (al3050_backlight_update_status pch pr g).ret = 0) ∧
    (al3050_backlight_update_status (probe_chip false) probe_props ackInpHigh).ret = 0 ∧
    (al3050_backlight_update_status (probe_chip false) probe_props
        ackInpHigh).chip.last_brightness = 31 ∧
    (al3050_backlight_update_status (probe_chip false) probe_props
        ackInpHigh).props.brightness = 31 ∧
    setData 31 false &&& 0xff = 0x1f := by
  refine ⟨?_, by decide, by decide, by decide, by decide⟩
  intro pch pr g
  simp only [al3050_backlight_update_status, al3050_backlight_set_value]
  split
  · rfl
  · split <;> rfl

end AL3050
